import Mathlib

/-!
Shallow embedding of `pkg/controller/util.go` from the containerized-data-importer
controller core, together with proofs of the specified properties.

Remote collaborators (the informer cache, the cluster API client) are modelled as
oracles passed in explicitly: a secret-lookup function, scripted responses for
claim Update/Get calls, and a cache lookup function.  Pointer aliasing in
`setPVCStatus` (the caller's claim versus its deep copy) is modelled by an
explicit heap of claim objects indexed by natural-number references.
-/

deriving instance DecidableEq for Except

namespace CDI

/-- Association-list lookup for string-keyed annotation maps
(`pvc.Annotations[k]` in Go, which yields `(value, found)`). -/
def lookupAnn (anns : List (String × String)) (k : String) : Option String :=
  match anns with
  | [] => none
  | (k₁, v) :: rest => if k₁ = k then some v else lookupAnn rest k

/-- Association-list update: set key `k` to `v`, replacing an existing binding
(`metav1.SetMetaDataAnnotation` semantics on the underlying map). -/
def setAnn (anns : List (String × String)) (k v : String) : List (String × String) :=
  match anns with
  | [] => [(k, v)]
  | (k₁, v₁) :: rest => if k₁ = k then (k, v) :: rest else (k₁, v₁) :: setAnn rest k v

/-- Modelled from the spec: the well-known endpoint annotation key (`annEndpoint`
is declared elsewhere in the controller package, outside the given source file;
its literal value is immaterial to every claim). -/
def annEndpoint : String := "kubevirt.io/storage.import.endpoint"

/-- Modelled from the spec: the credential-reference annotation key (`annSecret`,
declared outside the given source file). -/
def annSecret : String := "kubevirt.io/storage.import.secretName"

/-- Modelled from the spec: the status annotation key (`annStatus`, declared
outside the given source file). -/
def annStatus : String := "kubevirt.io/storage.import.status"

/-- Modelled from the spec: the creation-marker annotation key (`annCreatedBy`,
declared outside the given source file). -/
def annCreatedBy : String := "kubevirt.io/storage.createdByCDI"

/-- Modelled from the spec: `common.IMPORTER_PODNAME`, the fixed prefix of the
worker pod name (the spec example `importer-vol1` pins it to "importer"). -/
def IMPORTER_PODNAME : String := "importer"

/-- Modelled from the spec: `common.IMPORTER_DATA_DIR`, the data mount path. -/
def IMPORTER_DATA_DIR : String := "/data"

/-- Modelled from the spec: `common.IMPORTER_ENDPOINT`, the environment variable
name carrying the endpoint value. -/
def IMPORTER_ENDPOINT : String := "IMPORTER_ENDPOINT"

/-- Modelled from the spec: `common.IMPORTER_ACCESS_KEY_ID`, the environment
variable name for the access-id credential field. -/
def IMPORTER_ACCESS_KEY_ID : String := "IMPORTER_ACCESS_KEY_ID"

/-- Modelled from the spec: `common.IMPORTER_SECRET_KEY`, the environment
variable name for the access-secret credential field. -/
def IMPORTER_SECRET_KEY : String := "IMPORTER_SECRET_KEY"

/-- Modelled from the spec: `common.KeyAccess`, the fixed key of the access-id
field inside the credential secret. -/
def KeyAccess : String := "accessKeyId"

/-- Modelled from the spec: `common.KeySecret`, the fixed key of the
access-secret field inside the credential secret. -/
def KeySecret : String := "secretKey"

/-- A `v1.PersistentVolumeClaim` restricted to the fields this controller core
reads: namespace, name, the string-annotation map, and the resource-version
concurrency token. -/
structure PVC where
  ns : String
  name : String
  annotations : List (String × String)
  resourceVersion : Nat
deriving DecidableEq, Repr, Inhabited

/-- Embedding of `metav1.SetMetaDataAnnotation(&pvc.ObjectMeta, k, v)`: sets one annotation. -/
def pvcSetAnn (p : PVC) (k v : String) : PVC :=
  { p with annotations := setAnn p.annotations k v }

/-- The error values produced by `util.go`, one constructor per distinct
`fmt.Errorf` site (plus `wait.ErrWaitTimeout`, the timeout sub-case of the
status-update failure taxonomy). -/
inductive CtrlErr where
  /-- getEndpoint: the endpoint annotation is missing or blank in pvc ns/name. -/
  | missingEndpoint (ns nm : String)
  /-- getSecretName: error getting the secret declared in pvc ns/name. -/
  | credentialLookup (ns nm secretName cause : String)
  /-- setPVCStatus: error updating or getting pvc ns/name. -/
  | statusUpdate (verb ns nm cause : String)
  /-- wait.ErrWaitTimeout surfaced by setPVCStatus when the poll budget runs out. -/
  | statusUpdateTimeout
  /-- pvcFromKey: key object not of type string. -/
  | keyNotString
  /-- pvcFromKey: error getting key from the cache. -/
  | cacheGet (key : String)
  /-- pvcFromKey: cached object not a PersistentVolumeClaim. -/
  | notAPVC
deriving DecidableEq, Repr

/-- Embedding of `getEndpoint(pvc)`: returns the endpoint annotation value, failing when the
annotation is absent or blank.  Pure: it takes no oracle, hence makes no remote
calls. -/
def getEndpoint (pvc : PVC) : Except CtrlErr String :=
  match lookupAnn pvc.annotations annEndpoint with
  | none => .error (.missingEndpoint pvc.ns pvc.name)
  | some ep =>
    if ep = "" then .error (.missingEndpoint pvc.ns pvc.name)
    else .ok ep

/-- Outcome of one remote `Secrets(ns).Get(name)` call, as distinguished by the
code via `apierrs.IsNotFound`. -/
inductive SecretLookup where
  | found
  | notFound
  | otherErr (cause : String)
deriving DecidableEq, Repr

/-- Result of `getSecretName`: the returned (name, error) pair plus the number
of remote lookup calls the invocation issued. -/
structure SecretNameResult where
  res : Except CtrlErr String
  lookups : Nat
deriving DecidableEq, Repr

/-- Embedding of `getSecretName(pvc)`, with the remote secret Get modelled by the oracle
`lookup : namespace → name → SecretLookup`. -/
def getSecretName (lookup : String → String → SecretLookup) (pvc : PVC) :
    SecretNameResult :=
  match lookupAnn pvc.annotations annSecret with
  | none => ⟨.ok "", 0⟩
  | some name =>
    if name = "" then ⟨.ok "", 0⟩
    else
      match lookup pvc.ns name with
      | .found => ⟨.ok name, 1⟩
      | .notFound => ⟨.ok name, 1⟩
      | .otherErr cause =>
        ⟨.error (.credentialLookup pvc.ns pvc.name name cause), 1⟩

/-- Embedding of `v1.SecretKeySelector`: references one key of a named secret. -/
structure SecretKeySel where
  secretName : String
  key : String
deriving DecidableEq, Repr

/-- Embedding of `v1.EnvVar`: either a literal value or an indirect secret-key reference. -/
structure EnvVar where
  name : String
  value : String
  valueFrom : Option SecretKeySel
deriving DecidableEq, Repr

/-- Embedding of `makeEnv(endpoint, secret)`: the endpoint entry by value, plus the two
secret-key-referencing credential entries exactly when `secret` is non-empty. -/
def makeEnv (endpoint secret : String) : List EnvVar :=
  let env : List EnvVar := [⟨IMPORTER_ENDPOINT, endpoint, none⟩]
  if secret ≠ "" then
    env ++
      [⟨IMPORTER_ACCESS_KEY_ID, "", some ⟨secret, KeyAccess⟩⟩,
       ⟨IMPORTER_SECRET_KEY, "", some ⟨secret, KeySecret⟩⟩]
  else env

/-- Embedding of `v1.VolumeMount`, restricted to the fields set by the code. -/
structure VolumeMountSpec where
  name : String
  mountPath : String
deriving DecidableEq, Repr

/-- Embedding of `v1.Container`, restricted to the fields set by the code. -/
structure Container where
  name : String
  image : String
  imagePullAlways : Bool
  volumeMounts : List VolumeMountSpec
  env : List EnvVar
deriving DecidableEq, Repr, Inhabited

/-- Embedding of `v1.Volume` with a PersistentVolumeClaim source, as built by the code. -/
structure PodVolume where
  name : String
  claimName : String
  readOnly : Bool
deriving DecidableEq, Repr

/-- Embedding of `v1.Pod`, restricted to the fields set by `makeImporterPodSpec`. -/
structure Pod where
  kind : String
  apiVersion : String
  name : String
  annotations : List (String × String)
  containers : List Container
  restartNever : Bool
  volumes : List PodVolume
deriving DecidableEq, Repr

/-- Embedding of `makeImporterPodSpec(ep, secret, pvc)` for a controller whose importer image
tag is `tag`: deterministically builds the worker pod manifest. -/
def makeImporterPodSpec (tag ep secret : String) (pvc : PVC) : Pod :=
  let podName := IMPORTER_PODNAME ++ "-" ++ pvc.name
  { kind := "Pod"
    apiVersion := "v1"
    name := podName
    annotations := [(annCreatedBy, "yes")]
    containers :=
      [{ name := IMPORTER_PODNAME
         image := "docker.io/jcoperh/importer:" ++ tag
         imagePullAlways := true
         volumeMounts := [⟨"data-path", IMPORTER_DATA_DIR⟩]
         env := makeEnv ep secret }]
    restartNever := true
    volumes := [⟨"data-path", pvc.name, false⟩] }

/-- The environment list of the (single) importer container of a pod. -/
def podEnv (p : Pod) : List EnvVar :=
  (p.containers.getD 0 default).env

/-- The work-queue key handed to `pvcFromKey`: a string, or some other object
(the `key.(string)` type assertion distinguishes the two). -/
inductive KeyObj where
  | str (s : String)
  | other
deriving DecidableEq, Repr

/-- An object stored in the informer cache: a claim, or something else
(the `obj.(*v1.PersistentVolumeClaim)` type assertion distinguishes the two). -/
inductive CacheObj where
  | pvcObj (p : PVC)
  | otherObj
deriving DecidableEq, Repr

/-- The triple returned by `GetIndexer().GetByKey(key)`: object, found flag,
error. -/
structure ByKeyResult where
  obj : Option CacheObj
  found : Bool
  err : Option String
deriving DecidableEq, Repr

/-- Embedding of `pvcFromKey(key)`, with the indexed cache modelled by the oracle `cache`.
Mirrors the source order of checks exactly: the string assertion, then the
`!ok` early return, then the error check, then the claim type assertion. -/
def pvcFromKey (cache : String → ByKeyResult) (key : KeyObj) :
    Except CtrlErr (Option PVC) :=
  match key with
  | .other => .error .keyNotString
  | .str k =>
    let r := cache k
    if r.found = false then .ok none
    else
      match r.err with
      | some _ => .error (.cacheGet k)
      | none =>
        match r.obj with
        | some (.pvcObj p) => .ok (some p)
        | _ => .error .notAPVC

/-- A heap of claim objects; a Go pointer is an index into `objs`.  Used to
model the aliasing discipline of `setPVCStatus` (deep copy before mutation). -/
structure Heap where
  objs : List PVC
deriving DecidableEq, Repr

/-- Dereference a claim pointer (total, with a default for dangling refs). -/
def Heap.getPVC (h : Heap) (r : Nat) : PVC :=
  h.objs.getD r default

/-- In-place mutation of the object behind pointer `r`. -/
def Heap.setObj (h : Heap) (r : Nat) (p : PVC) : Heap :=
  ⟨h.objs.set r p⟩

/-- Allocate a fresh object (`DeepCopy`, or a freshly returned API object) and
return the heap together with the new pointer. -/
def Heap.alloc (h : Heap) (p : PVC) : Heap × Nat :=
  (⟨h.objs ++ [p]⟩, h.objs.length)

/-- Outcome of one `PersistentVolumeClaims(ns).Update(pvcClone)` call, as
distinguished by the code via `apierrs.IsConflict`. -/
inductive UpdateResp where
  | ok (p : PVC)
  | conflict (cause : String)
  | otherErr (cause : String)
deriving DecidableEq, Repr

/-- Outcome of one `PersistentVolumeClaims(ns).Get(name)` call. -/
inductive GetResp where
  | ok (p : PVC)
  | err (cause : String)
deriving DecidableEq, Repr

/-- Result of `setPVCStatus`: the final heap, the returned (claim pointer,
error) pair (`none` models Go's nil pointer), and the list of claim values
submitted to conditional Update calls, in order. -/
structure SetStatusResult where
  heap : Heap
  res : Except CtrlErr (Option Nat)
  sent : List PVC
deriving DecidableEq, Repr

/-- The body of `wait.PollImmediate` inside `setPVCStatus`: one attempt per
unit of fuel; `updates` is indexed by the number of Update calls issued so far
(`sent.length`), `gets` by the number of Get calls (`gc`).  Each attempt
mutates the clone behind `cloneRef` with the status annotation, submits it,
and on a conflict re-fetches, rebinding the clone pointer to the freshly
allocated fetched object.  Exhausted fuel is `wait.ErrWaitTimeout`. -/
def pollLoop (updates : Nat → UpdateResp) (gets : Nat → GetResp)
    (status : String) (ns nm : String) :
    Nat → Heap → Nat → List PVC → Nat → SetStatusResult
  | 0, heap, _, sent, _ => ⟨heap, .error .statusUpdateTimeout, sent⟩
  | fuel + 1, heap, cloneRef, sent, gc =>
    let clone := pvcSetAnn (heap.getPVC cloneRef) annStatus status
    let h₁ := heap.setObj cloneRef clone
    match updates sent.length with
    | .ok p =>
      let a := h₁.alloc p
      ⟨a.1, .ok (some a.2), sent ++ [clone]⟩
    | .conflict _ =>
      match gets gc with
      | .ok p =>
        let a := h₁.alloc p
        pollLoop updates gets status ns nm fuel a.1 a.2 (sent ++ [clone]) (gc + 1)
      | .err cause =>
        ⟨h₁, .error (.statusUpdate "getting" ns nm cause), sent ++ [clone]⟩
    | .otherErr cause =>
      ⟨h₁, .error (.statusUpdate "updating" ns nm cause), sent ++ [clone]⟩

/-- Attempt budget of `wait.PollImmediate(time.Second*1, time.Second*4, ...)`: the immediate
attempt plus one per poll tick within the four-second budget. -/
def pollBudget : Nat := 5

/-- Embedding of `setPVCStatus(pvc, status)`: returns the caller's claim untouched when the
status annotation already holds the target, otherwise deep-copies the claim and
runs the bounded conditional-update loop.  `pvcRef` is the caller's pointer. -/
def setPVCStatus (updates : Nat → UpdateResp) (gets : Nat → GetResp)
    (fuel : Nat) (heap : Heap) (pvcRef : Nat) (status : String) :
    SetStatusResult :=
  let pvc := heap.getPVC pvcRef
  if lookupAnn pvc.annotations annStatus = some status then
    ⟨heap, .ok (some pvcRef), []⟩
  else
    let a := heap.alloc pvc
    pollLoop updates gets status pvc.ns pvc.name fuel a.1 a.2 [] 0

/-- The spec's running example claim, with an endpoint and no credentials. -/
def examplePVC : PVC :=
  ⟨"ns", "vol1", [(annEndpoint, "https://example.org/data.img")], 1⟩

/-- A claim with no annotations at all. -/
def bareAnnPVC : PVC :=
  ⟨"ns", "vol2", [], 1⟩

/-- A claim declaring a credential reference. -/
def credPVC : PVC :=
  ⟨"ns", "vol3", [(annSecret, "cred")], 1⟩

/-- A cache whose lookup reports not-found together with an error. -/
def downCache : String → ByKeyResult :=
  fun _ => ⟨none, false, some "cache down"⟩

theorem Heap.getPVC_setObj_ne (h : Heap) (r s : Nat) (p : PVC) (hrs : r ≠ s) :
    (h.setObj r p).getPVC s = h.getPVC s := by
  simp [Heap.setObj, Heap.getPVC, List.getD_eq_getElem?_getD,
    List.getElem?_set_ne hrs]

theorem Heap.getPVC_alloc_lt (h : Heap) (r : Nat) (p : PVC)
    (hr : r < h.objs.length) : (h.alloc p).1.getPVC r = h.getPVC r := by
  simp [Heap.alloc, Heap.getPVC, List.getD_eq_getElem?_getD,
    List.getElem?_append_left hr]

theorem Heap.getPVC_alloc_self (h : Heap) (p : PVC) :
    (h.alloc p).1.getPVC (h.alloc p).2 = p := by
  simp [Heap.alloc, Heap.getPVC, List.getD_eq_getElem?_getD,
    List.getElem?_concat_length]

theorem Heap.length_setObj (h : Heap) (r : Nat) (p : PVC) :
    (h.setObj r p).objs.length = h.objs.length := by
  simp [Heap.setObj]

theorem Heap.length_alloc (h : Heap) (p : PVC) :
    (h.alloc p).1.objs.length = h.objs.length + 1 := by
  simp [Heap.alloc]

/-- One poll attempt consumes one unit of fuel, so the number of conditional
Update submissions grows by at most the fuel. -/
theorem pollLoop_sent_le (updates : Nat → UpdateResp) (gets : Nat → GetResp)
    (status ns nm : String) :
    ∀ fuel heap cloneRef sent gc,
      (pollLoop updates gets status ns nm fuel heap cloneRef sent gc).sent.length
        ≤ sent.length + fuel := by
  intro fuel
  induction fuel with
  | zero =>
    intro heap cloneRef sent gc
    simp [pollLoop]
  | succ n ih =>
    intro heap cloneRef sent gc
    cases hu : updates sent.length with
    | ok p =>
      simp [pollLoop, hu]
    | conflict c =>
      cases hg : gets gc with
      | ok p =>
        simp only [pollLoop, hu, hg]
        have h2 := ih ((heap.setObj cloneRef
            (pvcSetAnn (heap.getPVC cloneRef) annStatus status)).alloc p).1
          ((heap.setObj cloneRef
            (pvcSetAnn (heap.getPVC cloneRef) annStatus status)).alloc p).2
          (sent ++ [pvcSetAnn (heap.getPVC cloneRef) annStatus status]) (gc + 1)
        simp at h2
        omega
      | err c₂ =>
        simp [pollLoop, hu, hg]
    | otherErr c =>
      simp [pollLoop, hu]

/-- When every conditional Update answers with a conflict and every re-fetch
succeeds, the poll loop runs out of fuel and reports the wait timeout. -/
theorem pollLoop_conflict_timeout (updates : Nat → UpdateResp)
    (gets : Nat → GetResp) (status ns nm : String)
    (hu : ∀ n, ∃ m, updates n = .conflict m)
    (hg : ∀ n, ∃ p, gets n = .ok p) :
    ∀ fuel heap cloneRef sent gc,
      (pollLoop updates gets status ns nm fuel heap cloneRef sent gc).res
        = .error .statusUpdateTimeout := by
  intro fuel
  induction fuel with
  | zero =>
    intro heap cloneRef sent gc
    simp [pollLoop]
  | succ n ih =>
    intro heap cloneRef sent gc
    obtain ⟨m, hm⟩ := hu sent.length
    obtain ⟨p, hp⟩ := hg gc
    simp [pollLoop, hm, hp, ih]

/-- The poll loop never writes through any pointer below the clone pointer:
every heap mutation targets the current clone or a fresh allocation. -/
theorem pollLoop_frame (updates : Nat → UpdateResp) (gets : Nat → GetResp)
    (status ns nm : String) (r : Nat) :
    ∀ fuel heap cloneRef sent gc, r < heap.objs.length → r < cloneRef →
      (pollLoop updates gets status ns nm fuel heap cloneRef sent gc).heap.getPVC r
        = heap.getPVC r := by
  intro fuel
  induction fuel with
  | zero =>
    intro heap cloneRef sent gc h1 h2
    simp [pollLoop]
  | succ n ih =>
    intro heap cloneRef sent gc h1 h2
    have hne : cloneRef ≠ r := by omega
    have hr₁ : r < (heap.setObj cloneRef
        (pvcSetAnn (heap.getPVC cloneRef) annStatus status)).objs.length := by
      rw [Heap.length_setObj]
      exact h1
    cases hu : updates sent.length with
    | ok p =>
      simp only [pollLoop, hu]
      rw [Heap.getPVC_alloc_lt _ _ _ hr₁, Heap.getPVC_setObj_ne _ _ _ _ hne]
    | conflict c =>
      cases hg : gets gc with
      | ok p =>
        simp only [pollLoop, hu, hg]
        rw [ih _ _ _ _ ?_ ?_, Heap.getPVC_alloc_lt _ _ _ hr₁,
          Heap.getPVC_setObj_ne _ _ _ _ hne]
        · rw [Heap.length_alloc, Heap.length_setObj]
          omega
        · simp [Heap.alloc, Heap.setObj]
          omega
      | err c₂ =>
        simp only [pollLoop, hu, hg]
        rw [Heap.getPVC_setObj_ne _ _ _ _ hne]
    | otherErr c =>
      simp only [pollLoop, hu]
      rw [Heap.getPVC_setObj_ne _ _ _ _ hne]

/-- C3: with the source's fixed poll budget the Status Advancer issues at most
that many conditional writes — it cannot loop indefinitely — and when every
attempt within the budget fails with a version-conflict (each re-fetch
succeeding), it returns the wait-timeout flavored status-update error. -/
theorem setPVCStatus_bounded (updates : Nat → UpdateResp) (gets : Nat → GetResp)
    (heap : Heap) (pvcRef : Nat) (status : String) :
    (setPVCStatus updates gets pollBudget heap pvcRef status).sent.length
      ≤ pollBudget ∧
    ((∀ n, ∃ m, updates n = .conflict m) → (∀ n, ∃ p, gets n = .ok p) →
      lookupAnn (heap.getPVC pvcRef).annotations annStatus ≠ some status →
      (setPVCStatus updates gets pollBudget heap pvcRef status).res
        = .error .statusUpdateTimeout) := by
  constructor
  · by_cases h : lookupAnn (heap.getPVC pvcRef).annotations annStatus
        = some status
    · simp [setPVCStatus, h]
    · simp only [setPVCStatus, if_neg h]
      have := pollLoop_sent_le updates gets status (heap.getPVC pvcRef).ns
        (heap.getPVC pvcRef).name pollBudget (heap.alloc (heap.getPVC pvcRef)).1
        (heap.alloc (heap.getPVC pvcRef)).2 [] 0
      simpa using this
  · intro hu hg hne
    simp only [setPVCStatus, if_neg hne]
    exact pollLoop_conflict_timeout updates gets status _ _ hu hg pollBudget _ _ _ _

/-- Witness for C3: a persistently conflicting cluster exhausts the budget. -/
theorem setPVCStatus_bounded_witness :
    (setPVCStatus (fun _ => .conflict "busy") (fun _ => .ok examplePVC)
        pollBudget ⟨[examplePVC]⟩ 0 "done").sent.length ≤ pollBudget ∧
    (setPVCStatus (fun _ => .conflict "busy") (fun _ => .ok examplePVC)
        pollBudget ⟨[examplePVC]⟩ 0 "done").res = .error .statusUpdateTimeout :=
  ⟨(setPVCStatus_bounded (fun _ => .conflict "busy") (fun _ => .ok examplePVC)
      ⟨[examplePVC]⟩ 0 "done").1,
   (setPVCStatus_bounded (fun _ => .conflict "busy") (fun _ => .ok examplePVC)
      ⟨[examplePVC]⟩ 0 "done").2 (fun _ => ⟨"busy", rfl⟩)
      (fun _ => ⟨examplePVC, rfl⟩) (by decide)⟩

/-- C4: the Status Advancer never writes through the caller's claim pointer —
the object behind it (all fields, annotations included) is unchanged on every
path: already-set, success, conflict-retry, get failure, other failure and
timeout. -/
theorem setPVCStatus_no_mutation (updates : Nat → UpdateResp)
    (gets : Nat → GetResp) (fuel : Nat) (heap : Heap) (pvcRef : Nat)
    (status : String) (h : pvcRef < heap.objs.length) :
    (setPVCStatus updates gets fuel heap pvcRef status).heap.getPVC pvcRef
      = heap.getPVC pvcRef := by
  by_cases hs : lookupAnn (heap.getPVC pvcRef).annotations annStatus
      = some status
  · simp [setPVCStatus, hs]
  · simp only [setPVCStatus, if_neg hs]
    rw [pollLoop_frame _ _ _ _ _ _ _ _ _ _ _ ?_ ?_,
      Heap.getPVC_alloc_lt _ _ _ h]
    · rw [Heap.length_alloc]
      omega
    · exact h

/-- Witness for C4 on a one-object heap under a conflicting first write. -/
theorem setPVCStatus_no_mutation_witness :
    0 < (Heap.mk [credPVC]).objs.length ∧
    (setPVCStatus (fun _ => .conflict "busy") (fun _ => .ok examplePVC)
        pollBudget ⟨[credPVC]⟩ 0 "done").heap.getPVC 0
      = (Heap.mk [credPVC]).getPVC 0 :=
  ⟨by decide,
   setPVCStatus_no_mutation (fun _ => .conflict "busy")
     (fun _ => .ok examplePVC) pollBudget ⟨[credPVC]⟩ 0 "done" (by decide)⟩

/-- Two poll attempts where the first Update conflicts, the re-fetch yields a
fresh claim, and the second Update succeeds: the loop resubmits the annotated
fresh claim and finishes with the updated object and no error. -/
theorem pollLoop_one_conflict (updates : Nat → UpdateResp)
    (gets : Nat → GetResp) (status ns nm : String) (n : Nat) (heap : Heap)
    (cloneRef : Nat) (m : String) (u g : PVC)
    (h0 : updates 0 = .conflict m) (h1 : updates 1 = .ok u)
    (hg : gets 0 = .ok g) :
    ∃ r, (pollLoop updates gets status ns nm (n + 2) heap cloneRef [] 0).res
        = .ok (some r) ∧
      (pollLoop updates gets status ns nm (n + 2) heap cloneRef [] 0).heap.getPVC r
        = u ∧
      (pollLoop updates gets status ns nm (n + 2) heap cloneRef [] 0).sent =
        [pvcSetAnn (heap.getPVC cloneRef) annStatus status,
         pvcSetAnn g annStatus status] := by
  simp only [pollLoop, List.length_nil, List.nil_append, List.length_cons,
    List.length_append, Nat.zero_add, h0, h1, hg, Heap.getPVC_alloc_self]
  exact ⟨_, rfl, Heap.getPVC_alloc_self _ _, rfl⟩

/-- C1: when the status annotation differs from the target, the first
conditional write fails with a version-conflict, the re-fetch succeeds, and
the second write succeeds, the Status Advancer retries with the annotated
fresh copy and returns the updated claim with no error, within the poll
budget (it submits exactly the two writes). -/
theorem setPVCStatus_conflict_retry (updates : Nat → UpdateResp)
    (gets : Nat → GetResp) (heap : Heap) (pvcRef : Nat) (status m : String)
    (u g : PVC)
    (hne : lookupAnn (heap.getPVC pvcRef).annotations annStatus ≠ some status)
    (h0 : updates 0 = .conflict m) (h1 : updates 1 = .ok u)
    (hg : gets 0 = .ok g) :
    ∃ r, (setPVCStatus updates gets pollBudget heap pvcRef status).res
        = .ok (some r) ∧
      (setPVCStatus updates gets pollBudget heap pvcRef status).heap.getPVC r
        = u ∧
      (setPVCStatus updates gets pollBudget heap pvcRef status).sent =
        [pvcSetAnn (heap.getPVC pvcRef) annStatus status,
         pvcSetAnn g annStatus status] := by
  simp only [setPVCStatus, if_neg hne]
  have hclone : ((heap.alloc (heap.getPVC pvcRef)).1.getPVC
      (heap.alloc (heap.getPVC pvcRef)).2) = heap.getPVC pvcRef :=
    Heap.getPVC_alloc_self heap (heap.getPVC pvcRef)
  have := pollLoop_one_conflict updates gets status (heap.getPVC pvcRef).ns
    (heap.getPVC pvcRef).name 3 (heap.alloc (heap.getPVC pvcRef)).1
    (heap.alloc (heap.getPVC pvcRef)).2 m u g h0 h1 hg
  rw [hclone] at this
  exact this

/-- Witness for C1: a single-conflict cluster script against a claim whose
status annotation is absent. -/
theorem setPVCStatus_conflict_retry_witness :
    lookupAnn ((Heap.mk [examplePVC]).getPVC 0).annotations annStatus
      ≠ some "done" ∧
    ∃ r, (setPVCStatus
        (fun i => if i = 0 then .conflict "busy"
          else .ok (pvcSetAnn credPVC annStatus "done"))
        (fun _ => .ok credPVC) pollBudget ⟨[examplePVC]⟩ 0 "done").res
        = .ok (some r) ∧
      (setPVCStatus
        (fun i => if i = 0 then .conflict "busy"
          else .ok (pvcSetAnn credPVC annStatus "done"))
        (fun _ => .ok credPVC) pollBudget ⟨[examplePVC]⟩ 0 "done").heap.getPVC r
        = pvcSetAnn credPVC annStatus "done" ∧
      (setPVCStatus
        (fun i => if i = 0 then .conflict "busy"
          else .ok (pvcSetAnn credPVC annStatus "done"))
        (fun _ => .ok credPVC) pollBudget ⟨[examplePVC]⟩ 0 "done").sent =
        [pvcSetAnn ((Heap.mk [examplePVC]).getPVC 0) annStatus "done",
         pvcSetAnn credPVC annStatus "done"] :=
  ⟨by decide,
   setPVCStatus_conflict_retry
     (fun i => if i = 0 then .conflict "busy"
       else .ok (pvcSetAnn credPVC annStatus "done"))
     (fun _ => .ok credPVC) ⟨[examplePVC]⟩ 0 "done" "busy"
     (pvcSetAnn credPVC annStatus "done") credPVC (by decide) rfl rfl rfl⟩

/-- C2: when the status annotation already equals the target the Status
Advancer returns the caller's claim unchanged with no error and submits no
write at all; consequently, starting from a claim that does need the write,
invoking it twice in succession with the same target issues exactly one
conditional write (one on the first call, none on the second). -/
theorem setPVCStatus_idempotent :
    (∀ (updates : Nat → UpdateResp) (gets : Nat → GetResp) (fuel : Nat)
      (heap : Heap) (pvcRef : Nat) (status : String),
      lookupAnn (heap.getPVC pvcRef).annotations annStatus = some status →
      setPVCStatus updates gets fuel heap pvcRef status
        = ⟨heap, .ok (some pvcRef), []⟩) ∧
    (∀ (updates updates₂ : Nat → UpdateResp) (gets gets₂ : Nat → GetResp)
      (fuel fuel₂ : Nat) (heap : Heap) (pvcRef : Nat) (status : String)
      (u : PVC),
      lookupAnn (heap.getPVC pvcRef).annotations annStatus ≠ some status →
      updates 0 = .ok u →
      lookupAnn u.annotations annStatus = some status →
      0 < fuel →
      ∃ r, (setPVCStatus updates gets fuel heap pvcRef status).res
          = .ok (some r) ∧
        (setPVCStatus updates gets fuel heap pvcRef status).sent.length = 1 ∧
        (setPVCStatus updates₂ gets₂ fuel₂
            (setPVCStatus updates gets fuel heap pvcRef status).heap r
            status).sent.length = 0) := by
  constructor
  · intro updates gets fuel heap pvcRef status hs
    simp [setPVCStatus, hs]
  · intro updates updates₂ gets gets₂ fuel fuel₂ heap pvcRef status u hne hu
      hann hfuel
    obtain ⟨n, rfl⟩ : ∃ n, fuel = n + 1 := ⟨fuel - 1, by omega⟩
    simp only [setPVCStatus, if_neg hne, pollLoop, List.length_nil,
      List.nil_append, hu, Heap.getPVC_alloc_self]
    refine ⟨_, rfl, ?_, ?_⟩
    · simp
    · simp [Heap.getPVC_alloc_self, hann]

/-- Witness for C2: the already-set path on a claim whose annotation holds the
target, and the one-write path starting from the spec's example claim. -/
theorem setPVCStatus_idempotent_witness :
    setPVCStatus (fun _ => .conflict "busy") (fun _ => .ok examplePVC) 1
        ⟨[pvcSetAnn credPVC annStatus "done"]⟩ 0 "done"
      = ⟨⟨[pvcSetAnn credPVC annStatus "done"]⟩, .ok (some 0), []⟩ ∧
    ∃ r, (setPVCStatus (fun _ => .ok (pvcSetAnn examplePVC annStatus "done"))
          (fun _ => .ok examplePVC) 1 ⟨[examplePVC]⟩ 0 "done").res
        = .ok (some r) ∧
      (setPVCStatus (fun _ => .ok (pvcSetAnn examplePVC annStatus "done"))
          (fun _ => .ok examplePVC) 1 ⟨[examplePVC]⟩ 0 "done").sent.length = 1 ∧
      (setPVCStatus (fun _ => .conflict "busy") (fun _ => .ok examplePVC) 1
          (setPVCStatus (fun _ => .ok (pvcSetAnn examplePVC annStatus "done"))
            (fun _ => .ok examplePVC) 1 ⟨[examplePVC]⟩ 0 "done").heap r
          "done").sent.length = 0 :=
  ⟨setPVCStatus_idempotent.1 (fun _ => .conflict "busy")
     (fun _ => .ok examplePVC) 1 ⟨[pvcSetAnn credPVC annStatus "done"]⟩ 0
     "done" (by decide),
   setPVCStatus_idempotent.2 (fun _ => .ok (pvcSetAnn examplePVC annStatus
       "done")) (fun _ => .conflict "busy") (fun _ => .ok examplePVC)
     (fun _ => .ok examplePVC) 1 1 ⟨[examplePVC]⟩ 0 "done"
     (pvcSetAnn examplePVC annStatus "done") (by decide) rfl (by decide)
     (by decide)⟩

/-- C10: for every image tag, endpoint, credential name and claim, the built
worker manifest carries the creation-marker annotation with the exact value
"yes". -/
theorem makeImporterPodSpec_created_by (tag ep secret : String) (pvc : PVC) :
    lookupAnn (makeImporterPodSpec tag ep secret pvc).annotations annCreatedBy
      = some "yes" := by
  simp [makeImporterPodSpec, lookupAnn]

/-- C7: for every endpoint and credential name, the environment of the built
worker manifest is exactly the three entries (endpoint by value, access-id and
access-secret by secret-key reference to the credential name) when the
credential name is non-empty, and exactly the endpoint entry when it is
empty. -/
theorem makeImporterPodSpec_env (tag ep secret : String) (pvc : PVC) :
    (secret ≠ "" →
      podEnv (makeImporterPodSpec tag ep secret pvc) =
        [⟨IMPORTER_ENDPOINT, ep, none⟩,
         ⟨IMPORTER_ACCESS_KEY_ID, "", some ⟨secret, KeyAccess⟩⟩,
         ⟨IMPORTER_SECRET_KEY, "", some ⟨secret, KeySecret⟩⟩]) ∧
    (secret = "" →
      podEnv (makeImporterPodSpec tag ep secret pvc) =
        [⟨IMPORTER_ENDPOINT, ep, none⟩]) := by
  constructor <;> intro hs <;> simp [podEnv, makeImporterPodSpec, makeEnv, hs]

/-- Witness for C7 at the spec's example endpoint, with and without a
credential name. -/
theorem makeImporterPodSpec_env_witness :
    podEnv (makeImporterPodSpec "latest" "https://example.org/data.img" "cred"
        examplePVC) =
      [⟨IMPORTER_ENDPOINT, "https://example.org/data.img", none⟩,
       ⟨IMPORTER_ACCESS_KEY_ID, "", some ⟨"cred", KeyAccess⟩⟩,
       ⟨IMPORTER_SECRET_KEY, "", some ⟨"cred", KeySecret⟩⟩] ∧
    podEnv (makeImporterPodSpec "latest" "https://example.org/data.img" ""
        examplePVC) =
      [⟨IMPORTER_ENDPOINT, "https://example.org/data.img", none⟩] :=
  ⟨(makeImporterPodSpec_env "latest" "https://example.org/data.img" "cred"
      examplePVC).1 (by decide),
   (makeImporterPodSpec_env "latest" "https://example.org/data.img" ""
      examplePVC).2 rfl⟩

/-- C8: endpoint resolution fails with MissingEndpoint exactly when the
endpoint annotation is absent or empty, and otherwise returns the annotation
value with no error.  `getEndpoint` takes no oracle: it can make no remote
calls. -/
theorem getEndpoint_missing_iff (pvc : PVC) :
    (getEndpoint pvc = .error (.missingEndpoint pvc.ns pvc.name) ↔
      lookupAnn pvc.annotations annEndpoint = none ∨
      lookupAnn pvc.annotations annEndpoint = some "") ∧
    (∀ ep, lookupAnn pvc.annotations annEndpoint = some ep → ep ≠ "" →
      getEndpoint pvc = .ok ep) := by
  constructor
  · cases h : lookupAnn pvc.annotations annEndpoint with
    | none => simp [getEndpoint, h]
    | some ep => by_cases he : ep = "" <;> simp [getEndpoint, h, he]
  · intro ep h he
    simp [getEndpoint, h, he]

/-- Witness for C8: a claim with no annotations fails with MissingEndpoint,
and the spec's example claim resolves to its endpoint. -/
theorem getEndpoint_missing_iff_witness :
    getEndpoint bareAnnPVC = .error (.missingEndpoint "ns" "vol2") ∧
    getEndpoint examplePVC = .ok "https://example.org/data.img" :=
  ⟨(getEndpoint_missing_iff bareAnnPVC).1.mpr (Or.inl rfl),
   (getEndpoint_missing_iff examplePVC).2 "https://example.org/data.img"
     (by simp [examplePVC, lookupAnn]) (by decide)⟩

/-- C6: when the credential-reference annotation is absent or blank, credential
resolution returns the empty name and no error, and issues zero remote
lookups. -/
theorem getSecretName_no_cred (lookup : String → String → SecretLookup)
    (pvc : PVC)
    (h : lookupAnn pvc.annotations annSecret = none ∨
         lookupAnn pvc.annotations annSecret = some "") :
    getSecretName lookup pvc = ⟨.ok "", 0⟩ := by
  rcases h with h | h <;> simp [getSecretName, h]

/-- Witness for C6 on a claim with no annotations. -/
theorem getSecretName_no_cred_witness :
    lookupAnn bareAnnPVC.annotations annSecret = none ∧
    getSecretName (fun _ _ => SecretLookup.found) bareAnnPVC = ⟨.ok "", 0⟩ :=
  ⟨rfl, getSecretName_no_cred (fun _ _ => SecretLookup.found) bareAnnPVC
    (Or.inl rfl)⟩

/-- C5: when a credential name is declared, a not-found lookup returns the
declared name with no error, any other lookup failure yields a
CredentialLookupError carrying the cause, and a successful lookup returns the
declared name; each case issues exactly one remote lookup. -/
theorem getSecretName_lookup_cases (lookup : String → String → SecretLookup)
    (pvc : PVC) (name : String)
    (hn : lookupAnn pvc.annotations annSecret = some name) (hne : name ≠ "") :
    (lookup pvc.ns name = .notFound →
      getSecretName lookup pvc = ⟨.ok name, 1⟩) ∧
    (∀ cause, lookup pvc.ns name = .otherErr cause →
      getSecretName lookup pvc =
        ⟨.error (.credentialLookup pvc.ns pvc.name name cause), 1⟩) ∧
    (lookup pvc.ns name = .found →
      getSecretName lookup pvc = ⟨.ok name, 1⟩) := by
  refine ⟨fun hl => ?_, fun cause hl => ?_, fun hl => ?_⟩ <;>
    simp [getSecretName, hn, hne, hl]

/-- Witness for C5 on a claim declaring credential "cred", under each of the
three lookup outcomes. -/
theorem getSecretName_lookup_cases_witness :
    getSecretName (fun _ _ => SecretLookup.notFound) credPVC = ⟨.ok "cred", 1⟩ ∧
    getSecretName (fun _ _ => SecretLookup.otherErr "boom") credPVC =
      ⟨.error (.credentialLookup "ns" "vol3" "cred" "boom"), 1⟩ ∧
    getSecretName (fun _ _ => SecretLookup.found) credPVC = ⟨.ok "cred", 1⟩ :=
  ⟨(getSecretName_lookup_cases (fun _ _ => SecretLookup.notFound) credPVC
      "cred" (by simp [credPVC, lookupAnn]) (by decide)).1 rfl,
   (getSecretName_lookup_cases (fun _ _ => SecretLookup.otherErr "boom")
      credPVC "cred" (by simp [credPVC, lookupAnn]) (by decide)).2.1 "boom" rfl,
   (getSecretName_lookup_cases (fun _ _ => SecretLookup.found) credPVC
      "cred" (by simp [credPVC, lookupAnn]) (by decide)).2.2 rfl⟩

/-- C9 counterexample: a cache lookup that reports found=false together with a
non-nil error is answered by pvcFromKey with no claim and no error, so the
cache error is silently swallowed rather than surfaced. -/
theorem pvcFromKey_swallows_cache_error :
    (downCache "ns/vol1").found = false ∧
    (downCache "ns/vol1").err = some "cache down" ∧
    pvcFromKey downCache (.str "ns/vol1") = .ok none :=
  ⟨rfl, rfl, rfl⟩

/-- C9 amended: when the cache reports found=false, pvcFromKey returns no
claim and no error regardless of any accompanying error; a cache error is
surfaced only when the object was found. -/
theorem pvcFromKey_found_gate (cache : String → ByKeyResult) (k : String) :
    ((cache k).found = false → pvcFromKey cache (.str k) = .ok none) ∧
    (∀ e, (cache k).found = true → (cache k).err = some e →
      pvcFromKey cache (.str k) = .error (.cacheGet k)) := by
  constructor
  · intro h
    simp [pvcFromKey, h]
  · intro e h he
    simp [pvcFromKey, h, he]

/-- Witness for the amended C9: the swallowing path on the failing cache, and
the surfacing path on a cache that found the object but errs. -/
theorem pvcFromKey_found_gate_witness :
    pvcFromKey downCache (.str "ns/vol1") = .ok none ∧
    pvcFromKey (fun _ => ⟨none, true, some "cache down"⟩) (.str "ns/vol1") =
      .error (.cacheGet "ns/vol1") :=
  ⟨(pvcFromKey_found_gate downCache "ns/vol1").1 rfl,
   (pvcFromKey_found_gate (fun _ => ⟨none, true, some "cache down"⟩)
      "ns/vol1").2 "cache down" rfl rfl⟩

end CDI
